import Mathlib

/-!
# Verification of `src/noise_removal.cpp` against its specification

The program (`main` in `src/noise_removal.cpp`) transcodes an audio file to
MP3 while running Speex noise suppression on each decoded frame.  All I/O,
demuxing, decoding and encoding are calls into external libraries (FFmpeg,
SpeexDSP); the program's own logic is the sequence of guarded calls and the
packet loop at lines 148–166.

We embed the program shallowly: every external call's outcome is an input
(a field of `Env`), and the program is a pure function from `Env` to an exit
code together with a trace of its observable actions (stderr messages,
header/packet/trailer writes, the chunks handed to `speex_preprocess_run`
and to `avcodec_send_frame`).  Decoded frames carry their sample data as
lists of integers (the int16 samples of each data plane), mirroring
`AVFrame::data` / `AVFrame::nb_samples`.
-/

namespace NoiseRemoval

/-- A decoded audio frame (`AVFrame`), together with the outcomes of the
external encoder calls made on it: `encodeOk` is whether
`avcodec_send_frame` returns 0 (line 156), and `encPackets` is the number of
packets the `avcodec_receive_packet` loop (line 157) yields afterwards. -/
structure Frame where
  /-- `frame->nb_samples`: samples per channel in this frame. -/
  nbSamples : Nat
  /-- `frame->data[k]` viewed as 16-bit samples (plane 0 first). -/
  planes : List (List Int)
  /-- `frame->format` (sample-format tag). -/
  fmt : Nat
  /-- `frame->channels`. -/
  channels : Nat
  /-- `frame->pts` (timestamp). -/
  pts : Int
  /-- Outcome of `avcodec_send_frame(out_codec_context, frame) == 0`. -/
  encodeOk : Bool
  /-- How many packets `avcodec_receive_packet` then returns with 0. -/
  encPackets : Nat
  deriving Repr, DecidableEq

/-- One input packet as delivered by `av_read_frame`, together with the
outcome of the decoder calls on it: `sendOk` is whether
`avcodec_send_packet` returns 0 (line 150) and `frames` are the frames the
`avcodec_receive_frame` loop (line 151) then yields. -/
structure Packet where
  /-- `packet->stream_index`. -/
  streamIndex : Nat
  /-- Outcome of `avcodec_send_packet(codec_context, packet) == 0`. -/
  sendOk : Bool
  /-- Frames produced by the `avcodec_receive_frame` loop for this packet. -/
  frames : List Frame
  deriving Repr, DecidableEq

/-- Outcomes of every external call `main` makes, in program order.
`streams` lists, for each stream of the input container, whether its
`codecpar->codec_type` is `AVMEDIA_TYPE_AUDIO`.  `decoderResidue` is the
sequence of frames the decoder would still deliver if it were flushed
(`avcodec_send_packet(ctx, NULL)`) after the last packet — the program never
performs that call, so these frames are part of the input audio but are
never observable in its output. -/
structure Env where
  /-- `avformat_open_input(...) == 0` (line 31). -/
  openInputOk : Bool
  /-- `avformat_find_stream_info(...) >= 0` (line 37). -/
  findInfoOk : Bool
  /-- Per stream: is it an audio stream? (loop at lines 44–49). -/
  streams : List Bool
  /-- `avcodec_find_decoder` returned non-null (line 59). -/
  decoderFound : Bool
  /-- `avcodec_open2(codec_context, ...) >= 0` (line 68). -/
  decoderOpenOk : Bool
  /-- `codec_context->frame_size` at line 78 (denoise configuration). -/
  frameSize : Nat
  /-- `codec_context->sample_rate`. -/
  sampleRate : Nat
  /-- `avformat_alloc_output_context2` produced a context (line 87). -/
  allocOutputOk : Bool
  /-- `avcodec_find_encoder(AV_CODEC_ID_MP3)` returned non-null (line 94). -/
  encoderFound : Bool
  /-- `avformat_new_stream` returned non-null (line 101). -/
  newStreamOk : Bool
  /-- `avcodec_open2(out_codec_context, ...) >= 0` (line 116). -/
  encoderOpenOk : Bool
  /-- `avio_open(...) >= 0` (line 132). -/
  avioOpenOk : Bool
  /-- `avformat_write_header(...) >= 0` (line 139). -/
  writeHeaderOk : Bool
  /-- The packets `av_read_frame` delivers before reporting end of input. -/
  packets : List Packet
  /-- Frames still buffered inside the decoder at end of input, i.e. what a
  decoder flush would deliver.  The program never flushes the decoder. -/
  decoderResidue : List Frame
  deriving Repr, DecidableEq

/-- Observable actions of the program, in order. -/
inductive Event where
  /-- A diagnostic line on standard error. -/
  | err (msg : String)
  /-- `avformat_write_header` succeeded (line 139): output has begun. -/
  | headerWritten
  /-- `speex_preprocess_run(preprocess_state, frame->data[0])` (line 153):
  a chunk of `chunkLen` samples per channel handed to the Denoise Stage
  (the samples present at `frame->data[0]`, i.e. `frame->nb_samples`). -/
  | denoise (chunkLen : Nat)
  /-- `avcodec_send_frame(out_codec_context, frame)` (line 156): the frame
  handed to the encoder (already denoised in place). -/
  | sendFrame (f : Frame)
  /-- `av_interleaved_write_frame` (line 158): one encoded packet written. -/
  | writePacket
  /-- `av_write_trailer(output_format_context)` (line 169). -/
  | trailerWritten
  deriving Repr, DecidableEq

/-- `speex_preprocess_run` reads and writes exactly the configured frame
size `fs` of samples at the pointer it is given; `d` abstracts the (opaque)
numerical effect of the noise suppressor on those `fs` samples. -/
def speexRun (fs : Nat) (d : List Int → List Int) (xs : List Int) : List Int :=
  d (xs.take fs) ++ xs.drop fs

/-- Line 153: `speex_preprocess_run(preprocess_state,
(spx_int16_t*)frame->data[0])` mutates the frame's first data plane in
place; nothing else of the frame is touched. -/
def processFrame (fs : Nat) (d : List Int → List Int) (f : Frame) : Frame :=
  { f with planes :=
      match f.planes with
      | [] => []
      | p0 :: rest => speexRun fs d p0 :: rest }

/-- Lines 153–161: denoise the frame in place, hand the mutated frame to
the encoder, and write out whatever packets the encoder yields (only when
`avcodec_send_frame` returned 0).  Note there is no stderr output on any
failure here. -/
def handleFrame (fs : Nat) (d : List Int → List Int) (f : Frame) : List Event :=
  Event.denoise f.nbSamples :: Event.sendFrame (processFrame fs d f) ::
    (if (processFrame fs d f).encodeOk then
      List.replicate (processFrame fs d f).encPackets Event.writePacket
    else [])

/-- Lines 149–165: one iteration of the packet loop.  Packets of other
streams are skipped by the guard at line 149; a failing
`avcodec_send_packet` (line 150) silently skips the packet. -/
def handlePacket (fs : Nat) (d : List Int → List Int) (audioIdx : Nat)
    (p : Packet) : List Event :=
  if p.streamIndex = audioIdx then
    if p.sendOk then p.frames.flatMap (handleFrame fs d) else []
  else []

/-- Lines 44–49: index of the first stream whose codec type is audio. -/
def audioStreamIndex (streams : List Bool) : Option Nat :=
  (streams.findIdx? id)

/-- The whole of `main` after argument parsing: the chain of guarded opens
(each failing one prints its message and returns −1), then the packet loop,
then `av_write_trailer` and the final `return 0`.  Returns the exit code and
the trace of observable events. -/
def runPipeline (d : List Int → List Int) (env : Env) : Int × List Event :=
  if !env.openInputOk then (-1, [.err "Could not open input file"])
  else if !env.findInfoOk then
    (-1, [.err "Failed to retrieve input stream information"])
  else
    match audioStreamIndex env.streams with
    | none => (-1, [.err "Could not find audio stream"])
    | some audioIdx =>
      if !env.decoderFound then (-1, [.err "Codec not found"])
      else if !env.decoderOpenOk then (-1, [.err "Could not open codec"])
      else if !env.allocOutputOk then
        (-1, [.err "Could not create output context"])
      else if !env.encoderFound then (-1, [.err "MP3 encoder not found"])
      else if !env.newStreamOk then
        (-1, [.err "Failed to create a new stream for output"])
      else if !env.encoderOpenOk then
        (-1, [.err "Could not open the encoder"])
      else if !env.avioOpenOk then (-1, [.err "Could not open output file"])
      else if !env.writeHeaderOk then
        (-1, [.err "Error occurred when opening output file"])
      else
        (0, Event.headerWritten ::
              (env.packets.flatMap (handlePacket env.frameSize d audioIdx) ++
                [Event.trailerWritten]))

/-- All the guarded opens of lines 31–142 succeed (so the program reaches
the packet loop). -/
def opensOk (env : Env) : Prop :=
  env.openInputOk = true ∧ env.findInfoOk = true ∧
  (audioStreamIndex env.streams).isSome = true ∧
  env.decoderFound = true ∧ env.decoderOpenOk = true ∧
  env.allocOutputOk = true ∧ env.encoderFound = true ∧
  env.newStreamOk = true ∧ env.encoderOpenOk = true ∧
  env.avioOpenOk = true ∧ env.writeHeaderOk = true

instance (env : Env) : Decidable (opensOk env) := by
  unfold opensOk; infer_instance

/-- Events that write to the output file. -/
def Event.isOutput : Event → Bool
  | .headerWritten | .writePacket | .trailerWritten => true
  | _ => false

/-- The chunk lengths handed to the Denoise Stage, in order. -/
def denoiseLens (tr : List Event) : List Nat :=
  tr.filterMap fun e => match e with | .denoise n => some n | _ => none

/-- The chunk lengths (samples per channel) handed to the encoder, in
order. -/
def sendFrameLens (tr : List Event) : List Nat :=
  tr.filterMap fun e => match e with | .sendFrame f => some f.nbSamples | _ => none

/-- Samples per channel of the frames the decoder yields for the packets of
the audio stream that are successfully sent to it, in order. -/
def decodedLens (env : Env) (audioIdx : Nat) : List Nat :=
  (env.packets.filter
      (fun p => p.streamIndex == audioIdx && p.sendOk)).flatMap
    (fun p => p.frames.map Frame.nbSamples)

/-- `out_codec_context->frame_size` after opening the MP3 encoder: MPEG-1
layer III frames hold 1152 samples per channel. -/
def mp3EncoderFrameSize : Nat := 1152

/-- Lines 108–113: the output encoder configuration built by `main`. -/
structure EncoderConfig where
  codecId : String
  sampleRate : Nat
  channelLayout : String
  channels : Nat
  bitRate : Nat
  deriving Repr, DecidableEq

/-- Lines 94 and 108–113: `avcodec_find_encoder(AV_CODEC_ID_MP3)`, then
`sample_rate = codec_context->sample_rate`, `channel_layout =
AV_CH_LAYOUT_STEREO`, `channels = av_get_channel_layout_nb_channels(stereo)
= 2`, `bit_rate = 192000`. -/
def outEncoderConfig (env : Env) : EncoderConfig :=
  { codecId := "AV_CODEC_ID_MP3"
    sampleRate := env.sampleRate
    channelLayout := "AV_CH_LAYOUT_STEREO"
    channels := 2
    bitRate := 192000 }

/-- Total samples per channel of audio in the input stream: everything the
decoder produces for the audio packets it accepts, plus what it still holds
at end of input. -/
def totalInputSamples (env : Env) (audioIdx : Nat) : Nat :=
  (decodedLens env audioIdx).sum +
    (env.decoderResidue.map Frame.nbSamples).sum

/-- Interpret a value in `[0, 2^16)` as a two's-complement 16-bit integer. -/
def toInt16 (n : Nat) : Int :=
  if n % 65536 < 32768 then (n % 65536 : Int) else (n % 65536 : Int) - 65536

/-- Reinterpret one 32-bit word (given as its unsigned value, stored
little-endian as on the target platform) as two consecutive 16-bit signed
samples — the effect of the cast `(spx_int16_t*)frame->data[0]` at line 153
when the decoded plane actually holds 32-bit floating-point samples. -/
def reinterpretWordAsInt16Pair (w : Nat) : List Int :=
  [toInt16 (w % 65536), toInt16 ((w / 65536) % 65536)]

/-- The 16-bit sample stream that line 153's pointer cast makes of a plane
of 32-bit words (e.g. single-precision floats): pure bit reinterpretation,
no numeric conversion. -/
def castFloatPlaneToInt16 (ws : List Nat) : List Int :=
  ws.flatMap reinterpretWordAsInt16Pair

/-- IEEE-754 single-precision bit pattern of the value 2.0
(sign 0, exponent 128, mantissa 0): `0x40000000`. -/
def floatBits2 : Nat := 0x40000000

/-- Maximum representable 16-bit signed value. -/
def int16Max : Int := 32767

/-! ## Concrete test fixtures -/

/-- A decoded frame of `n` samples per channel (single plane of zeros),
whose encode succeeds and yields one packet. -/
def mkFrame (n : Nat) : Frame :=
  { nbSamples := n, planes := [List.replicate n 0], fmt := 8, channels := 1,
    pts := 0, encodeOk := true, encPackets := 1 }

/-- A packet of the audio stream (index 0) that decodes successfully. -/
def audioPacket (frames : List Frame) : Packet :=
  { streamIndex := 0, sendOk := true, frames := frames }

/-- An audio packet on which `avcodec_send_packet` fails. -/
def badDecodePacket : Packet :=
  { streamIndex := 0, sendOk := false, frames := [mkFrame 5] }

/-- A packet of a non-audio stream (index 1). -/
def videoPacket : Packet :=
  { streamIndex := 1, sendOk := true, frames := [mkFrame 4] }

/-- An environment where every open succeeds, stream 0 is the audio stream,
the decoder reports frame size `fs`, and the run sees `pkts` then end of
input with `residue` still buffered in the decoder. -/
def baseEnv (fs : Nat) (pkts : List Packet) (residue : List Frame) : Env :=
  { openInputOk := true, findInfoOk := true, streams := [true],
    decoderFound := true, decoderOpenOk := true, frameSize := fs,
    sampleRate := 8000, allocOutputOk := true, encoderFound := true,
    newStreamOk := true, encoderOpenOk := true, avioOpenOk := true,
    writeHeaderOk := true, packets := pkts, decoderResidue := residue }

/-- Denoise configured for 1152-sample chunks, but the decoder emits a
5-sample frame. -/
def envShortFrame : Env := baseEnv 1152 [audioPacket [mkFrame 5]] []

/-- One 8-sample frame is decoded; a 1-sample frame stays buffered in the
decoder at end of input. -/
def envResidue : Env := baseEnv 1152 [audioPacket [mkFrame 8]] [mkFrame 1]

/-- Denoise frame length 6; the stream ends with a partial 4-sample chunk
and a 7-sample frame still buffered in the decoder. -/
def envPartial : Env := baseEnv 6 [audioPacket [mkFrame 4]] [mkFrame 7]

/-- A single audio packet whose decode fails. -/
def envBadDecode : Env := baseEnv 6 [badDecodePacket] []

/-- A fully successful run over one audio packet. -/
def envOk : Env := baseEnv 6 [audioPacket [mkFrame 2]] []

/-- An input whose only stream is not an audio stream. -/
def envNoAudio : Env := { baseEnv 6 [] [] with streams := [false] }

/-- An audio packet followed by a packet of another (video) stream. -/
def envMixed : Env := baseEnv 6 [audioPacket [mkFrame 2], videoPacket] []

/-! ## Structural lemmas about the pipeline -/

theorem processFrame_nbSamples (fs : Nat) (d : List Int → List Int) (f : Frame) :
    (processFrame fs d f).nbSamples = f.nbSamples := rfl

theorem processFrame_encodeOk (fs : Nat) (d : List Int → List Int) (f : Frame) :
    (processFrame fs d f).encodeOk = f.encodeOk := rfl

theorem processFrame_encPackets (fs : Nat) (d : List Int → List Int) (f : Frame) :
    (processFrame fs d f).encPackets = f.encPackets := rfl

/-- `main` either fails at one of the guarded opens — printing one message
and returning −1 before producing any output — or reaches the packet loop
and produces the header, the loop's events, and the trailer, returning 0. -/
theorem runPipeline_shape (d : List Int → List Int) (env : Env) :
    (opensOk env ∧ ∃ idx, audioStreamIndex env.streams = some idx ∧
        runPipeline d env = (0, Event.headerWritten ::
          (env.packets.flatMap (handlePacket env.frameSize d idx) ++
            [Event.trailerWritten]))) ∨
    (¬ opensOk env ∧ ∃ msg, runPipeline d env = (-1, [Event.err msg])) := by
  by_cases h1 : env.openInputOk = true
  case neg =>
    have hb : env.openInputOk = false := by revert h1; cases env.openInputOk <;> simp
    exact Or.inr ⟨fun h => by simp [opensOk, hb] at h,
      "Could not open input file", by simp [runPipeline, hb]⟩
  by_cases h2 : env.findInfoOk = true
  case neg =>
    have hb : env.findInfoOk = false := by revert h2; cases env.findInfoOk <;> simp
    exact Or.inr ⟨fun h => by simp [opensOk, hb] at h,
      "Failed to retrieve input stream information", by simp [runPipeline, h1, hb]⟩
  rcases hidx : audioStreamIndex env.streams with - | idx
  · exact Or.inr ⟨fun h => by simp [opensOk, hidx] at h,
      "Could not find audio stream", by simp [runPipeline, h1, h2, hidx]⟩
  by_cases h4 : env.decoderFound = true
  case neg =>
    have hb : env.decoderFound = false := by revert h4; cases env.decoderFound <;> simp
    exact Or.inr ⟨fun h => by simp [opensOk, hb] at h,
      "Codec not found", by simp [runPipeline, h1, h2, hidx, hb]⟩
  by_cases h5 : env.decoderOpenOk = true
  case neg =>
    have hb : env.decoderOpenOk = false := by revert h5; cases env.decoderOpenOk <;> simp
    exact Or.inr ⟨fun h => by simp [opensOk, hb] at h,
      "Could not open codec", by simp [runPipeline, h1, h2, hidx, h4, hb]⟩
  by_cases h6 : env.allocOutputOk = true
  case neg =>
    have hb : env.allocOutputOk = false := by revert h6; cases env.allocOutputOk <;> simp
    exact Or.inr ⟨fun h => by simp [opensOk, hb] at h,
      "Could not create output context", by simp [runPipeline, h1, h2, hidx, h4, h5, hb]⟩
  by_cases h7 : env.encoderFound = true
  case neg =>
    have hb : env.encoderFound = false := by revert h7; cases env.encoderFound <;> simp
    exact Or.inr ⟨fun h => by simp [opensOk, hb] at h,
      "MP3 encoder not found", by simp [runPipeline, h1, h2, hidx, h4, h5, h6, hb]⟩
  by_cases h8 : env.newStreamOk = true
  case neg =>
    have hb : env.newStreamOk = false := by revert h8; cases env.newStreamOk <;> simp
    exact Or.inr ⟨fun h => by simp [opensOk, hb] at h,
      "Failed to create a new stream for output",
      by simp [runPipeline, h1, h2, hidx, h4, h5, h6, h7, hb]⟩
  by_cases h9 : env.encoderOpenOk = true
  case neg =>
    have hb : env.encoderOpenOk = false := by revert h9; cases env.encoderOpenOk <;> simp
    exact Or.inr ⟨fun h => by simp [opensOk, hb] at h,
      "Could not open the encoder",
      by simp [runPipeline, h1, h2, hidx, h4, h5, h6, h7, h8, hb]⟩
  by_cases h10 : env.avioOpenOk = true
  case neg =>
    have hb : env.avioOpenOk = false := by revert h10; cases env.avioOpenOk <;> simp
    exact Or.inr ⟨fun h => by simp [opensOk, hb] at h,
      "Could not open output file",
      by simp [runPipeline, h1, h2, hidx, h4, h5, h6, h7, h8, h9, hb]⟩
  by_cases h11 : env.writeHeaderOk = true
  case neg =>
    have hb : env.writeHeaderOk = false := by revert h11; cases env.writeHeaderOk <;> simp
    exact Or.inr ⟨fun h => by simp [opensOk, hb] at h,
      "Error occurred when opening output file",
      by simp [runPipeline, h1, h2, hidx, h4, h5, h6, h7, h8, h9, h10, hb]⟩
  exact Or.inl ⟨⟨h1, h2, by simp [hidx], h4, h5, h6, h7, h8, h9, h10, h11⟩, idx, rfl,
    by simp [runPipeline, h1, h2, hidx, h4, h5, h6, h7, h8, h9, h10, h11]⟩

/-- Under successful opens, the run is the header, the packet loop's
events, and the trailer. -/
theorem runPipeline_eq_of_opensOk (d : List Int → List Int) (env : Env) (idx : Nat)
    (hidx : audioStreamIndex env.streams = some idx) (hok : opensOk env) :
    runPipeline d env = (0, Event.headerWritten ::
      (env.packets.flatMap (handlePacket env.frameSize d idx) ++
        [Event.trailerWritten])) := by
  rcases runPipeline_shape d env with ⟨-, idx2, hidx2, heq⟩ | ⟨hno, -⟩
  · rw [hidx] at hidx2
    obtain rfl : idx = idx2 := Option.some.inj hidx2
    exact heq
  · exact absurd hok hno

theorem denoiseLens_append (a b : List Event) :
    denoiseLens (a ++ b) = denoiseLens a ++ denoiseLens b :=
  List.filterMap_append a b _

theorem sendFrameLens_append (a b : List Event) :
    sendFrameLens (a ++ b) = sendFrameLens a ++ sendFrameLens b :=
  List.filterMap_append a b _

theorem denoiseLens_handleFrame (fs : Nat) (d : List Int → List Int) (f : Frame) :
    denoiseLens (handleFrame fs d f) = [f.nbSamples] := by
  unfold handleFrame denoiseLens
  cases h : (processFrame fs d f).encodeOk <;>
    simp [h, List.filterMap_replicate]

theorem sendFrameLens_handleFrame (fs : Nat) (d : List Int → List Int) (f : Frame) :
    sendFrameLens (handleFrame fs d f) = [f.nbSamples] := by
  unfold handleFrame sendFrameLens
  cases h : (processFrame fs d f).encodeOk <;>
    simp [h, List.filterMap_replicate, processFrame_nbSamples]

theorem denoiseLens_flatMap_frames (fs : Nat) (d : List Int → List Int)
    (frames : List Frame) :
    denoiseLens (frames.flatMap (handleFrame fs d)) =
      frames.map Frame.nbSamples := by
  induction frames with
  | nil => rfl
  | cons f fr ih =>
      rw [List.flatMap_cons, denoiseLens_append, denoiseLens_handleFrame, ih]
      rfl

theorem sendFrameLens_flatMap_frames (fs : Nat) (d : List Int → List Int)
    (frames : List Frame) :
    sendFrameLens (frames.flatMap (handleFrame fs d)) =
      frames.map Frame.nbSamples := by
  induction frames with
  | nil => rfl
  | cons f fr ih =>
      rw [List.flatMap_cons, sendFrameLens_append, sendFrameLens_handleFrame, ih]
      rfl

theorem denoiseLens_handlePacket (fs : Nat) (d : List Int → List Int)
    (idx : Nat) (p : Packet) :
    denoiseLens (handlePacket fs d idx p) =
      if p.streamIndex == idx && p.sendOk then p.frames.map Frame.nbSamples
      else [] := by
  unfold handlePacket
  by_cases hs : p.streamIndex = idx
  · cases hp : p.sendOk
    · simp [hs, hp, denoiseLens]
    · simp [hs, hp, denoiseLens_flatMap_frames]
  · have hb : (p.streamIndex == idx) = false := by simp [hs]
    simp [hs, hb, denoiseLens]

theorem sendFrameLens_handlePacket (fs : Nat) (d : List Int → List Int)
    (idx : Nat) (p : Packet) :
    sendFrameLens (handlePacket fs d idx p) =
      if p.streamIndex == idx && p.sendOk then p.frames.map Frame.nbSamples
      else [] := by
  unfold handlePacket
  by_cases hs : p.streamIndex = idx
  · cases hp : p.sendOk
    · simp [hs, hp, sendFrameLens]
    · simp [hs, hp, sendFrameLens_flatMap_frames]
  · have hb : (p.streamIndex == idx) = false := by simp [hs]
    simp [hs, hb, sendFrameLens]

theorem denoiseLens_loop (fs : Nat) (d : List Int → List Int) (idx : Nat)
    (pkts : List Packet) :
    denoiseLens (pkts.flatMap (handlePacket fs d idx)) =
      (pkts.filter (fun p => p.streamIndex == idx && p.sendOk)).flatMap
        (fun p => p.frames.map Frame.nbSamples) := by
  induction pkts with
  | nil => rfl
  | cons p ps ih =>
      rw [List.flatMap_cons, denoiseLens_append, denoiseLens_handlePacket, ih,
        List.filter_cons]
      by_cases h : (p.streamIndex == idx && p.sendOk) = true
      · simp [h]
      · simp [h]

theorem sendFrameLens_loop (fs : Nat) (d : List Int → List Int) (idx : Nat)
    (pkts : List Packet) :
    sendFrameLens (pkts.flatMap (handlePacket fs d idx)) =
      (pkts.filter (fun p => p.streamIndex == idx && p.sendOk)).flatMap
        (fun p => p.frames.map Frame.nbSamples) := by
  induction pkts with
  | nil => rfl
  | cons p ps ih =>
      rw [List.flatMap_cons, sendFrameLens_append, sendFrameLens_handlePacket, ih,
        List.filter_cons]
      by_cases h : (p.streamIndex == idx && p.sendOk) = true
      · simp [h]
      · simp [h]

theorem denoiseLens_wrap (L : List Event) :
    denoiseLens (Event.headerWritten :: (L ++ [Event.trailerWritten])) =
      denoiseLens L := by
  simp [denoiseLens, List.filterMap_append, List.filterMap_cons]

theorem sendFrameLens_wrap (L : List Event) :
    sendFrameLens (Event.headerWritten :: (L ++ [Event.trailerWritten])) =
      sendFrameLens L := by
  simp [sendFrameLens, List.filterMap_append, List.filterMap_cons]

theorem err_notMem_handleFrame (m : String) (fs : Nat)
    (d : List Int → List Int) (f : Frame) :
    Event.err m ∉ handleFrame fs d f := by
  unfold handleFrame
  cases h : (processFrame fs d f).encodeOk <;> simp [h, List.mem_replicate]

theorem err_notMem_handlePacket (m : String) (fs : Nat)
    (d : List Int → List Int) (idx : Nat) (p : Packet) :
    Event.err m ∉ handlePacket fs d idx p := by
  unfold handlePacket
  split
  · split
    · intro hmem
      obtain ⟨f, -, hf⟩ := List.mem_flatMap.mp hmem
      exact err_notMem_handleFrame m fs d f hf
    · simp
  · simp

theorem err_notMem_loop (m : String) (fs : Nat) (d : List Int → List Int)
    (idx : Nat) (pkts : List Packet) :
    Event.err m ∉ pkts.flatMap (handlePacket fs d idx) := by
  intro hmem
  obtain ⟨p, -, hp⟩ := List.mem_flatMap.mp hmem
  exact err_notMem_handlePacket m fs d idx p hp

/-! ## Claim theorems -/

/-- Claim C1, counterexample: with the denoise stage configured for
1152-sample chunks, a decoded frame of 5 samples is handed as-is both to
`speex_preprocess_run` and to `avcodec_send_frame`; neither chunk has the
configured denoise frame length nor the MP3 encoder's 1152-sample frame
length, so the chunk-length invariant fails. -/
theorem chunk_length_invariant_fails :
    ¬ ((∀ n ∈ denoiseLens (runPipeline id envShortFrame).2,
          n = envShortFrame.frameSize) ∧
       (∀ n ∈ sendFrameLens (runPipeline id envShortFrame).2,
          n = mp3EncoderFrameSize)) := by
  decide

/-- Claim C1, amended: the program performs no frame-length reconciliation;
every chunk handed to the Denoise Stage and every chunk handed to the
encoder has exactly the decoded frame's own sample count, in decode
order. -/
theorem chunk_lengths_follow_decoded_frames (env : Env)
    (d : List Int → List Int) (idx : Nat)
    (hidx : audioStreamIndex env.streams = some idx) (hok : opensOk env) :
    denoiseLens (runPipeline d env).2 = decodedLens env idx ∧
    sendFrameLens (runPipeline d env).2 = decodedLens env idx := by
  rw [runPipeline_eq_of_opensOk d env idx hidx hok]
  dsimp only
  constructor
  · rw [denoiseLens_wrap, denoiseLens_loop]; rfl
  · rw [sendFrameLens_wrap, sendFrameLens_loop]; rfl

/-- Witness for the amended C1 at a concrete run. -/
theorem chunk_lengths_follow_decoded_frames_witness :
    denoiseLens (runPipeline id envShortFrame).2 = decodedLens envShortFrame 0 ∧
    sendFrameLens (runPipeline id envShortFrame).2 = decodedLens envShortFrame 0 :=
  chunk_lengths_follow_decoded_frames envShortFrame id 0 (by decide) (by decide)

/-- Claim C2, counterexample: the input holds 9 samples per channel (8
decoded during the run, 1 still buffered in the decoder at end of input,
which the program never flushes), but only 8 samples reach the encoder — no
padding amounts `p1 < denoise frame length` and `p2 < encoder frame length`
can make the delivered count equal `M + p1 + p2`. -/
theorem sample_conservation_fails :
    ¬ ∃ p1 p2 : Nat, p1 < envResidue.frameSize ∧ p2 < mp3EncoderFrameSize ∧
        (sendFrameLens (runPipeline id envResidue).2).sum =
          totalInputSamples envResidue 0 + p1 + p2 := by
  rintro ⟨p1, p2, -, -, h⟩
  have h1 : (sendFrameLens (runPipeline id envResidue).2).sum = 8 := by decide
  have h2 : totalInputSamples envResidue 0 = 9 := by decide
  rw [h1, h2] at h
  omega

/-- Claim C2, amended: the samples per channel delivered to the encoder are
exactly those of the frames the decoder emits for successfully sent audio
packets — never padded; frames still buffered in the decoder at end of
input are dropped, so the delivered count is the input total minus that
residue. -/
theorem sample_accounting_no_padding (env : Env) (d : List Int → List Int)
    (idx : Nat) (hidx : audioStreamIndex env.streams = some idx)
    (hok : opensOk env) :
    (sendFrameLens (runPipeline d env).2).sum = (decodedLens env idx).sum ∧
    (sendFrameLens (runPipeline d env).2).sum +
        (env.decoderResidue.map Frame.nbSamples).sum =
      totalInputSamples env idx := by
  rw [runPipeline_eq_of_opensOk d env idx hidx hok]
  dsimp only
  rw [sendFrameLens_wrap, sendFrameLens_loop]
  exact ⟨rfl, rfl⟩

/-- Witness for the amended C2 at a concrete run. -/
theorem sample_accounting_no_padding_witness :
    (sendFrameLens (runPipeline id envResidue).2).sum =
        (decodedLens envResidue 0).sum ∧
    (sendFrameLens (runPipeline id envResidue).2).sum +
        (envResidue.decoderResidue.map Frame.nbSamples).sum =
      totalInputSamples envResidue 0 :=
  sample_accounting_no_padding envResidue id 0 (by decide) (by decide)

/-- Claim C3, counterexample: with a denoise frame length of 6, the stream
ends with a 4-sample partial chunk (and a frame still buffered in the
decoder), yet the only chunk ever handed to the Denoise Stage has length 4:
no zero-padded chunk of the configured length 6 is ever emitted, so no
draining phase runs before the trailer is written. -/
theorem draining_phase_absent :
    envPartial.frameSize = 6 ∧
    denoiseLens (runPipeline id envPartial).2 = [4] ∧
    envPartial.frameSize ∉ denoiseLens (runPipeline id envPartial).2 := by
  decide

/-- Claim C3, amended: when the demuxer reports end of input the program
writes the trailer immediately after the packet loop; there is no decoder
flush, no padded final chunk, and no encoder flush — every chunk the
Denoise Stage ever sees comes from a decoded frame of the loop. -/
theorem trailer_immediately_after_loop (env : Env) (d : List Int → List Int)
    (idx : Nat) (hidx : audioStreamIndex env.streams = some idx)
    (hok : opensOk env) :
    (runPipeline d env).2 =
      Event.headerWritten ::
        (env.packets.flatMap (handlePacket env.frameSize d idx) ++
          [Event.trailerWritten]) ∧
    (∀ n, Event.denoise n ∈ (runPipeline d env).2 → n ∈ decodedLens env idx) := by
  rw [runPipeline_eq_of_opensOk d env idx hidx hok]
  dsimp only
  refine ⟨rfl, ?_⟩
  intro n hn
  have hmem : n ∈ denoiseLens
      (env.packets.flatMap (handlePacket env.frameSize d idx)) := by
    rcases List.mem_cons.mp hn with h1 | h1
    · exact absurd h1 (by simp)
    · rcases List.mem_append.mp h1 with h2 | h2
      · exact List.mem_filterMap.mpr ⟨Event.denoise n, h2, rfl⟩
      · exact absurd h2 (by simp)
  rw [denoiseLens_loop] at hmem
  exact hmem

/-- Witness for the amended C3 at a concrete run. -/
theorem trailer_immediately_after_loop_witness :
    (runPipeline id envPartial).2 =
      Event.headerWritten ::
        (envPartial.packets.flatMap (handlePacket envPartial.frameSize id 0) ++
          [Event.trailerWritten]) :=
  (trailer_immediately_after_loop envPartial id 0 (by decide) (by decide)).1

/-- Claim C4, counterexample: the cast `(spx_int16_t*)frame->data[0]` at
line 153 performs no numeric conversion; a floating-point sample of 2.0
(IEEE-754 bits 0x40000000) is reinterpreted as the two 16-bit samples 0 and
16384 — the maximum 16-bit value 32767 is never produced, so there is no
saturating conversion. -/
theorem float_saturation_fails :
    castFloatPlaneToInt16 [floatBits2] = [0, 16384] ∧
    int16Max ∉ castFloatPlaneToInt16 [floatBits2] := by
  decide

/-- Claim C4, amended: no sample-format conversion exists; the pointer cast
reinterprets raw bytes, so a float sample 2.0 is read as the 16-bit sample
values 0 and 16384, not as the saturated maximum. -/
theorem float_cast_reinterprets_bits :
    castFloatPlaneToInt16 [floatBits2] ≠ [int16Max] ∧
    castFloatPlaneToInt16 [floatBits2] =
      [toInt16 (floatBits2 % 65536), toInt16 (floatBits2 / 65536 % 65536)] := by
  decide

/-- Claim C5: the exit code is 0 exactly when every open step succeeds (an
audio stream exists and all codecs and the output open); on any failed open
the program returns a nonzero code having produced no output at all. -/
theorem exit_code_policy (env : Env) (d : List Int → List Int) :
    (opensOk env → (runPipeline d env).1 = 0) ∧
    (¬ opensOk env → (runPipeline d env).1 ≠ 0 ∧
      ∀ e ∈ (runPipeline d env).2, e.isOutput = false) := by
  rcases runPipeline_shape d env with ⟨hok, idx, hidx, heq⟩ | ⟨hno, msg, heq⟩
  · exact ⟨fun _ => by rw [heq], fun hc => absurd hok hc⟩
  · refine ⟨fun h => absurd h hno, fun _ => ⟨by rw [heq]; dsimp only; decide, ?_⟩⟩
    rw [heq]
    intro e he
    have he2 : e = Event.err msg := by simpa using he
    subst he2
    rfl

/-- Witness for C5: a fully successful run exits 0; a run on an input with
no audio stream exits nonzero. -/
theorem exit_code_policy_witness :
    (runPipeline id envOk).1 = 0 ∧ (runPipeline id envNoAudio).1 ≠ 0 :=
  ⟨(exit_code_policy envOk id).1 (by decide),
   ((exit_code_policy envNoAudio id).2 (by decide)).1⟩

/-- Claim C6: a packet whose stream index differs from the audio stream's
contributes nothing — the whole run is identical to the run on the same
input with that packet removed. -/
theorem nonaudio_packets_ignored (env : Env) (d : List Int → List Int)
    (idx : Nat) (pre post : List Packet) (p : Packet)
    (hidx : audioStreamIndex env.streams = some idx) (hok : opensOk env)
    (hp : env.packets = pre ++ p :: post) (hne : p.streamIndex ≠ idx) :
    runPipeline d env = runPipeline d { env with packets := pre ++ post } := by
  have hidx2 : audioStreamIndex
      ({ env with packets := pre ++ post } : Env).streams = some idx := hidx
  have hok2 : opensOk { env with packets := pre ++ post } := hok
  rw [runPipeline_eq_of_opensOk d env idx hidx hok,
    runPipeline_eq_of_opensOk d _ idx hidx2 hok2]
  dsimp only
  rw [hp, List.flatMap_append, List.flatMap_cons, List.flatMap_append]
  have hz : handlePacket env.frameSize d idx p = [] := by
    unfold handlePacket; simp [hne]
  rw [hz]
  simp

/-- Witness for C6 at a concrete run with one video packet. -/
theorem nonaudio_packets_ignored_witness :
    runPipeline id envMixed =
      runPipeline id
        { envMixed with packets := [audioPacket [mkFrame 2]] ++ [] } :=
  nonaudio_packets_ignored envMixed id 0 [audioPacket [mkFrame 2]] []
    videoPacket (by decide) (by decide) rfl (by decide)

/-- Claim C7, counterexample: an audio packet on which `avcodec_send_packet`
fails is skipped, but nothing is ever written to standard error — the
failure is not logged, contrary to the claim. -/
theorem decode_failure_not_logged :
    (∃ p ∈ envBadDecode.packets, p.streamIndex = 0 ∧ p.sendOk = false) ∧
    ¬ ∃ m, Event.err m ∈ (runPipeline id envBadDecode).2 := by
  constructor
  · exact ⟨badDecodePacket, by decide, by decide⟩
  · rintro ⟨m, hm⟩
    have htr : (runPipeline id envBadDecode).2 =
        [Event.headerWritten, Event.trailerWritten] := by decide
    rw [htr] at hm
    simp at hm

/-- Claim C7, amended: a failing decode (and a failing encode) is skipped
silently — that packet contributes nothing, no message is logged, and the
run continues exactly as if the packet were absent; no format-conversion
path exists at all, so no conversion failure can occur. -/
theorem decode_encode_failures_silently_skipped (env : Env)
    (d : List Int → List Int) (idx : Nat) (pre post : List Packet)
    (p : Packet) (hidx : audioStreamIndex env.streams = some idx)
    (hok : opensOk env) (hp : env.packets = pre ++ p :: post)
    (hps : p.streamIndex = idx) (hfail : p.sendOk = false) :
    runPipeline d env = runPipeline d { env with packets := pre ++ post } ∧
    (∀ m, Event.err m ∉ (runPipeline d env).2) := by
  constructor
  · have hidx2 : audioStreamIndex
        ({ env with packets := pre ++ post } : Env).streams = some idx := hidx
    have hok2 : opensOk { env with packets := pre ++ post } := hok
    rw [runPipeline_eq_of_opensOk d env idx hidx hok,
      runPipeline_eq_of_opensOk d _ idx hidx2 hok2]
    dsimp only
    rw [hp, List.flatMap_append, List.flatMap_cons, List.flatMap_append]
    have hz : handlePacket env.frameSize d idx p = [] := by
      unfold handlePacket; simp [hps, hfail]
    rw [hz]
    simp
  · intro m
    rw [runPipeline_eq_of_opensOk d env idx hidx hok]
    dsimp only
    intro hm
    rcases List.mem_cons.mp hm with h1 | h1
    · exact Event.noConfusion h1
    · rcases List.mem_append.mp h1 with h2 | h2
      · exact err_notMem_loop m env.frameSize d idx env.packets h2
      · simp at h2

/-- Witness for the amended C7 at a concrete run with one failing audio
packet. -/
theorem decode_encode_failures_silently_skipped_witness :
    runPipeline id envBadDecode =
      runPipeline id { envBadDecode with packets := ([] : List Packet) ++ [] } ∧
    Event.err "Could not decode" ∉ (runPipeline id envBadDecode).2 :=
  ⟨(decode_encode_failures_silently_skipped envBadDecode id 0 [] []
      badDecodePacket (by decide) (by decide) rfl (by decide) (by decide)).1,
   (decode_encode_failures_silently_skipped envBadDecode id 0 [] []
      badDecodePacket (by decide) (by decide) rfl (by decide) (by decide)).2
     "Could not decode"⟩

/-- Claim C8: whenever the header has been written (output has begun), the
trailer write is also reached — after the header, `main` has no early exit
before `av_write_trailer`, so the output container is always finalized. -/
theorem trailer_written_whenever_header_written (env : Env)
    (d : List Int → List Int)
    (h : Event.headerWritten ∈ (runPipeline d env).2) :
    Event.trailerWritten ∈ (runPipeline d env).2 := by
  rcases runPipeline_shape d env with ⟨-, idx, -, heq⟩ | ⟨-, msg, heq⟩
  · rw [heq]
    simp
  · rw [heq] at h
    simp at h

/-- Witness for C8 at a concrete successful run. -/
theorem trailer_written_whenever_header_written_witness :
    Event.trailerWritten ∈ (runPipeline id envOk).2 :=
  trailer_written_whenever_header_written envOk id (by decide)

/-- Claim C9: the denoise step rewrites only the frame's first data plane
(and only its first `fs` samples, `fs` the configured Speex frame size);
every other plane and all frame metadata (sample count, format tag, channel
count, timestamp) reach the encoder unchanged. -/
theorem denoise_touches_only_first_plane (fs : Nat)
    (d : List Int → List Int) (f : Frame) :
    handleFrame fs d f =
      Event.denoise f.nbSamples :: Event.sendFrame (processFrame fs d f) ::
        (if f.encodeOk then List.replicate f.encPackets Event.writePacket
         else []) ∧
    (processFrame fs d f).nbSamples = f.nbSamples ∧
    (processFrame fs d f).fmt = f.fmt ∧
    (processFrame fs d f).channels = f.channels ∧
    (processFrame fs d f).pts = f.pts ∧
    (processFrame fs d f).planes.tail = f.planes.tail ∧
    (processFrame fs d f).planes.head? =
      f.planes.head?.map (speexRun fs d) := by
  refine ⟨rfl, rfl, rfl, rfl, rfl, ?_, ?_⟩
  · cases hp : f.planes <;> simp [processFrame, hp]
  · cases hp : f.planes <;> simp [processFrame, hp]

/-- Claim C10: regardless of the input, the output encoder is configured
with the MP3 codec, stereo layout (2 channels), bit rate 192000, and the
input stream's sample rate. -/
theorem encoder_config_fixed (env : Env) :
    (outEncoderConfig env).codecId = "AV_CODEC_ID_MP3" ∧
    (outEncoderConfig env).channelLayout = "AV_CH_LAYOUT_STEREO" ∧
    (outEncoderConfig env).channels = 2 ∧
    (outEncoderConfig env).bitRate = 192000 ∧
    (outEncoderConfig env).sampleRate = env.sampleRate :=
  ⟨rfl, rfl, rfl, rfl, rfl⟩

end NoiseRemoval
